import Mathlib

/-!
Shallow embedding of `src/panel_hopper/core.py`: the connection-lifecycle and
fan-out send orchestrator (LinkPool / get_persistent_session, the retry loop of
PanelController.send_to_panel, and the fan-out drivers send_to_multiple /
send_same_to_all).

External BLE behaviour (whether a connect, a send or a whole ephemeral attempt
succeeds, times out or raises) is an input to each embedded function, so every
theorem quantifies over all behaviours of the radio layer.  Sleeps, session
opens and close attempts are recorded in an event trace.  A Python exception
escaping a function is modelled as `Except.error msg`.
-/

namespace PanelHopper

/-- Externally observed behaviour of one ephemeral attempt of `send_to_panel`
(the body run under `asyncio.wait_for`): everything succeeds, the deadline
expires before the "sending" progress callback (during `_connect`), the
deadline expires after it (during `send_png`), or an exception with text `msg`
is raised before / after that point. -/
inductive EphOutcome where
  | ok
  | timeoutEarly
  | timeoutLate
  | errEarly (msg : String)
  | errLate (msg : String)
deriving DecidableEq

/-- Trace events: a fresh `BleDisplaySession` constructed, a best-effort
`_safe_disconnect` of it, the 0.5 s post-send settle sleep, the
`panel_delay` sleep of the `finally` block, the trailing
"Max retries exceeded" return being reached, and a `disconnect` of a pooled
session during `close_all_sessions`. -/
inductive Ev where
  | openSession
  | closeAttempt
  | settleSleep
  | panelSleep
  | exhausted
  | disc (mac : String)
deriving DecidableEq

/-- Behaviour of the optional progress observer: `cb phase = some msg` means the
callback raises an exception whose `str` is `msg` when invoked with that phase
label; `none` means it returns normally.  An absent callback is `fun _ => none`. -/
abbrev Cb : Type := String → Option String

/-- State of one `PersistentSession` object: `hasSession` models
`self.session is not None`, `connected` models `self.connected`. -/
structure PersistentSession where
  mac : String
  name : String
  hasSession : Bool
  connected : Bool
deriving DecidableEq

/-- `PersistentSession.__init__`: `self.name = name or mac`, no session yet. -/
def PersistentSession.init (mac name : String) : PersistentSession :=
  { mac := mac, name := if name = "" then mac else name,
    hasSession := false, connected := false }

/-- `PersistentSession.connect`: fast path when already connected with a live
session; otherwise construct a `BleDisplaySession` (so `self.session` becomes
set) and attempt `_connect` under `wait_for`, whose success is the input
`ok`; on failure `connected` is set to `False` but the session object stays. -/
def PersistentSession.connect (s : PersistentSession) (ok : Bool) :
    Bool × PersistentSession :=
  if s.connected ∧ s.hasSession then (true, s)
  else if ok then (true, { s with hasSession := true, connected := true })
  else (false, { s with hasSession := true, connected := false })

/-- `PersistentSession.send_frame`: returns `False` when not connected or no
session; otherwise `send_png` succeeds iff the input `ok`, and on failure
the exception is swallowed and `connected` is set to `False`. -/
def PersistentSession.send_frame (s : PersistentSession) (ok : Bool) :
    Bool × PersistentSession :=
  if s.connected ∧ s.hasSession then
    if ok then (true, s) else (false, { s with connected := false })
  else (false, s)

/-- `PersistentSession.disconnect`: best-effort `_safe_disconnect` whose own
failure (`safeDiscFails`) is swallowed by `try/except: pass`; the session is
dropped and `connected` cleared unconditionally. -/
def PersistentSession.disconnect (s : PersistentSession) (safeDiscFails : Bool) :
    PersistentSession :=
  let _ := safeDiscFails
  { s with hasSession := false, connected := false }

/-- The global dict `PERSISTENT_SESSIONS`, as an insertion-ordered association
list keyed by device address. -/
abbrev Pool : Type := List (String × PersistentSession)

/-- Dict lookup `PERSISTENT_SESSIONS[mac]`. -/
def poolLookup (pool : Pool) (mac : String) : Option PersistentSession :=
  (pool.find? (fun p => p.1 == mac)).map (fun p => p.2)

/-- In-place mutation of the entry stored under `mac`. -/
def poolUpdate (pool : Pool) (mac : String) (s : PersistentSession) : Pool :=
  pool.map (fun p => if p.1 == mac then (p.1, s) else p)

/-- `get_persistent_session(mac, name)`: uppercase the address; if absent and
the pool already holds 3 entries, return `None` without touching the pool; if
absent and below capacity, store a fresh `PersistentSession` and connect it
(the entry stays in the dict even when the connect fails); if present and
connected return it; if present and disconnected, reconnect it in place.
Returns the stored session (with its pool key) only when it ends up
connected.  `connectOk` is the behaviour of the one possible `_connect`. -/
def get_persistent_session (connectOk : Bool) (pool : Pool) (mac name : String) :
    Option (String × PersistentSession) × Pool :=
  let mac := mac.toUpper
  match poolLookup pool mac with
  | none =>
    if 3 ≤ pool.length then (none, pool)
    else
      let s0 := PersistentSession.init mac name
      let c := s0.connect connectOk
      (if c.1 then some (mac, c.2) else none, pool ++ [(mac, c.2)])
  | some s =>
    if s.connected then (some (mac, s), pool)
    else
      let c := s.connect connectOk
      (if c.1 then some (mac, c.2) else none, poolUpdate pool mac c.2)

/-- `close_all_sessions()`: `disconnect` every stored session (each one
swallowing its own `_safe_disconnect` failure, supplied per index by
`discFails`) and then clear the dict. -/
def close_all_sessions (discFails : Nat → Bool) (pool : Pool) : List Ev × Pool :=
  (pool.enum.map (fun p => Ev.disc ((p.2.2.disconnect (discFails p.1)).mac)), [])

/-- Configuration of a `PanelController`, restricted to the fields that steer
control flow (the float-valued delays only feed `asyncio.sleep`, which the
trace records symbolically). -/
structure Config where
  retries : Nat
  use_persistent : Bool
deriving DecidableEq

/-- Result of one iteration of the retry loop: a `return` statement with the
produced pair, an exception propagating out, or falling through to the next
iteration. -/
inductive StepRes where
  | returned (success : Bool) (msg : String)
  | raised (msg : String)
  | next
deriving DecidableEq

/-- Events of the `finally` block of one ephemeral attempt: the fresh session
is closed only when `use_persistent` is off, and the `panel_delay` sleep runs
unconditionally. -/
def finEvents (cfg : Config) : List Ev :=
  (if cfg.use_persistent then [] else [Ev.closeAttempt]) ++ [Ev.panelSleep]

/-- Result of the `try` body of one attempt: the `return True, "OK"` is
reached, `asyncio.TimeoutError` is caught, or a generic exception with text
`msg` is caught. -/
inductive InnerRes where
  | ret
  | timedOut
  | caught (msg : String)
deriving DecidableEq

/-- The `try` body of one ephemeral attempt: construct the session (always
recorded, the constructor runs before any await), run connect / the "sending"
callback / `send_png` / the 0.5 s settle sleep / the "success" callback, any
of which may end the body with a timeout or a caught exception.  Exceptions
raised by the callback at the "sending" and "success" phases happen inside
the `try` and are caught like any other. -/
def tryBody (e : EphOutcome) (cb : Cb) : InnerRes × List Ev :=
  match e with
  | .timeoutEarly => (.timedOut, [Ev.openSession])
  | .errEarly m => (.caught m, [Ev.openSession])
  | .timeoutLate =>
    match cb "sending" with
    | some m => (.caught m, [Ev.openSession])
    | none => (.timedOut, [Ev.openSession])
  | .errLate m =>
    match cb "sending" with
    | some m2 => (.caught m2, [Ev.openSession])
    | none => (.caught m, [Ev.openSession])
  | .ok =>
    match cb "sending" with
    | some m => (.caught m, [Ev.openSession])
    | none =>
      match cb "success" with
      | some m => (.caught m, [Ev.openSession, Ev.settleSleep])
      | none => (.ret, [Ev.openSession, Ev.settleSleep])

/-- One iteration of the ephemeral retry loop for a given attempt behaviour.
The "connecting" callback fires before the `try` block, so an exception there
propagates with no cleanup; inside the handlers, on the last attempt the
"timeout" / "error: ..." callbacks fire before the `return`, and an exception
from them replaces the return value; the `finally` events always run once the
`try` was entered. -/
def oneAttempt (cfg : Config) (e : EphOutcome) (cb : Cb) (isLast : Bool) :
    StepRes × List Ev :=
  match cb "connecting" with
  | some m => (.raised m, [])
  | none =>
    let b := tryBody e cb
    let evs := b.2 ++ finEvents cfg
    match b.1 with
    | .ret => (.returned true "OK", evs)
    | .timedOut =>
      if isLast then
        match cb "timeout" with
        | some m => (.raised m, evs)
        | none => (.returned false "Connection timeout", evs)
      else (.next, evs)
    | .caught m =>
      if isLast then
        match cb ("error: " ++ m) with
        | some m2 => (.raised m2, evs)
        | none => (.returned false m, evs)
      else (.next, evs)

/-- The `for attempt in range(1, retries + 1)` loop, run over the list of
remaining attempt numbers; `eph a` is the behaviour of attempt `a`, and
last-ness is the source's `attempt == self.retries` test.  Falling off the
end reaches the trailing `return False, "Max retries exceeded"`, recorded by
the `exhausted` trace event. -/
def runAttempts (cfg : Config) (eph : Nat → EphOutcome) (cb : Cb) :
    List Nat → Except String (Bool × String) × List Ev
  | [] => (.ok (false, "Max retries exceeded"), [Ev.exhausted])
  | a :: rest =>
    match oneAttempt cfg (eph a) cb (a == cfg.retries) with
    | (.returned s m, evs) => (.ok (s, m), evs)
    | (.raised m, evs) => (.error m, evs)
    | (.next, evs) =>
      let r := runAttempts cfg eph cb rest
      (r.1, evs ++ r.2)

/-- The attempt numbers `1, ..., retries` of the retry loop. -/
def attemptNums (retries : Nat) : List Nat := List.range' 1 retries

/-- Radio-layer behaviour for one `send_to_panel` call: whether the pooled
session's `_connect` succeeds, whether `send_frame` over it succeeds, the
behaviour of each ephemeral attempt, and the behaviour of the progress
observer. -/
structure TargetEnv where
  pConnectOk : Bool
  pSendOk : Bool
  eph : Nat → EphOutcome
  cb : Cb

/-- `PanelController.send_to_panel`: try the pooled session first when
`use_persistent` is set (the "sending" / "success" callbacks of that path run
outside any `try`, so an exception from them escapes); on pooled send failure
the entry is marked disconnected and control falls through to the ephemeral
retry loop.  Returns the produced `(success, message)` pair (or the escaping
exception), the event trace, and the final pool. -/
def send_to_panel (cfg : Config) (env : TargetEnv) (pool : Pool)
    (mac name : String) : Except String (Bool × String) × List Ev × Pool :=
  let displayName := if name = "" then mac else name
  let acq :=
    if cfg.use_persistent then get_persistent_session env.pConnectOk pool mac displayName
    else (none, pool)
  match acq with
  | (some ks, pool1) =>
    if ks.2.connected then
      match env.cb "sending" with
      | some m => (.error m, [], pool1)
      | none =>
        let sf := ks.2.send_frame env.pSendOk
        let pool2 := poolUpdate pool1 ks.1 sf.2
        if sf.1 then
          match env.cb "success" with
          | some m => (.error m, [], pool2)
          | none => (.ok (true, "OK"), [], pool2)
        else
          let r := runAttempts cfg env.eph env.cb (attemptNums cfg.retries)
          (r.1, r.2, pool2)
    else
      let r := runAttempts cfg env.eph env.cb (attemptNums cfg.retries)
      (r.1, r.2, pool1)
  | (none, pool1) =>
    let r := runAttempts cfg env.eph env.cb (attemptNums cfg.retries)
    (r.1, r.2, pool1)

/-- One fan-out target `(mac, name, png_bytes)`; the payload is an opaque byte
blob the core never inspects. -/
structure Target where
  mac : String
  name : String
  png : List Nat

/-- The sequential loop of `send_to_multiple`, from target index `i` on: each
target's `(mac, success, message)` is appended in order; an exception escaping
`send_to_panel` propagates and aborts the remaining targets. -/
def sendToMultipleFrom (cfg : Config) (envs : Nat → TargetEnv) :
    Nat → Pool → List Target →
    Except String (List (String × Bool × String)) × List Ev × Pool
  | _, pool, [] => (.ok [], [], pool)
  | i, pool, t :: rest =>
    match send_to_panel cfg (envs i) pool t.mac t.name with
    | (.error m, evs, pool1) => (.error m, evs, pool1)
    | (.ok sm, evs, pool1) =>
      match sendToMultipleFrom cfg envs (i + 1) pool1 rest with
      | (.error m, evs2, pool2) => (.error m, evs ++ evs2, pool2)
      | (.ok results, evs2, pool2) =>
        (.ok ((t.mac, sm.1, sm.2) :: results), evs ++ evs2, pool2)

/-- `PanelController.send_to_multiple`: sequential fan-out over the targets,
threading the pool, with `envs i` the radio behaviour seen by target `i`. -/
def send_to_multiple (cfg : Config) (envs : Nat → TargetEnv) (pool : Pool)
    (targets : List Target) :
    Except String (List (String × Bool × String)) × List Ev × Pool :=
  sendToMultipleFrom cfg envs 0 pool targets

/-- `PanelController.send_same_to_all`: broadcast one payload by building the
target list and delegating to `send_to_multiple`. -/
def send_same_to_all (cfg : Config) (envs : Nat → TargetEnv) (pool : Pool)
    (macs : List (String × String)) (png : List Nat) :
    Except String (List (String × Bool × String)) × List Ev × Pool :=
  send_to_multiple cfg envs pool
    (macs.map (fun p => { mac := p.1, name := p.2, png := png }))

end PanelHopper

namespace PanelHopper

/-! ### Shared definitions for the theorems -/

/-- A silent observer: every invocation of the progress callback returns
normally (in particular, the absent callback `fun _ => none`). -/
def silentCb (cb : Cb) : Prop := ∀ ph, cb ph = none

/-- A sequence of pool acquisitions: fold `get_persistent_session` over
requests `(connectOk, mac, name)`, threading the pool. -/
def acquireSeq (pool : Pool) (reqs : List (Bool × String × String)) : Pool :=
  reqs.foldl (fun p r => (get_persistent_session r.1 p r.2.1 r.2.2).2) pool

/-! ### Helper lemmas about one attempt of the retry loop -/

theorem tryBody_evs_cases (e : EphOutcome) (cb : Cb) :
    (tryBody e cb).2 = [Ev.openSession] ∨
    (tryBody e cb).2 = [Ev.openSession, Ev.settleSleep] := by
  cases e with
  | ok =>
    cases hs : cb "sending" with
    | some m => exact Or.inl (by simp [tryBody, hs])
    | none =>
      cases hk : cb "success" with
      | some m => exact Or.inr (by simp [tryBody, hs, hk])
      | none => exact Or.inr (by simp [tryBody, hs, hk])
  | timeoutEarly => exact Or.inl rfl
  | timeoutLate =>
    cases hs : cb "sending" with
    | some m => exact Or.inl (by simp [tryBody, hs])
    | none => exact Or.inl (by simp [tryBody, hs])
  | errEarly m => exact Or.inl rfl
  | errLate m =>
    cases hs : cb "sending" with
    | some m2 => exact Or.inl (by simp [tryBody, hs])
    | none => exact Or.inl (by simp [tryBody, hs])

theorem oneAttempt_evs (cfg : Config) (e : EphOutcome) (cb : Cb) (isLast : Bool) :
    (oneAttempt cfg e cb isLast).2 =
      match cb "connecting" with
      | some _ => []
      | none => (tryBody e cb).2 ++ finEvents cfg := by
  cases hc : cb "connecting" with
  | some m => simp [oneAttempt, hc]
  | none =>
    rcases htb : tryBody e cb with ⟨inner, evs⟩
    cases inner with
    | ret => simp [oneAttempt, hc, htb]
    | timedOut =>
      cases isLast with
      | true => cases ht : cb "timeout" <;> simp [oneAttempt, hc, htb, ht]
      | false => simp [oneAttempt, hc, htb]
    | caught m =>
      cases isLast with
      | true => cases he : cb ("error: " ++ m) <;> simp [oneAttempt, hc, htb, he]
      | false => simp [oneAttempt, hc, htb]

theorem exhausted_not_mem_finEvents (cfg : Config) : Ev.exhausted ∉ finEvents cfg := by
  cases h : cfg.use_persistent <;> simp [finEvents, h]

theorem exhausted_not_mem_oneAttempt (cfg : Config) (e : EphOutcome) (cb : Cb)
    (isLast : Bool) : Ev.exhausted ∉ (oneAttempt cfg e cb isLast).2 := by
  rw [oneAttempt_evs]
  cases hc : cb "connecting" with
  | some m => simp
  | none =>
    simp only [List.mem_append, not_or]
    refine ⟨?_, exhausted_not_mem_finEvents cfg⟩
    rcases tryBody_evs_cases e cb with h | h <;> simp [h]

theorem oneAttempt_last_ne_next (cfg : Config) (e : EphOutcome) (cb : Cb) :
    (oneAttempt cfg e cb true).1 ≠ StepRes.next := by
  cases hc : cb "connecting" with
  | some m => simp [oneAttempt, hc]
  | none =>
    rcases htb : tryBody e cb with ⟨inner, evs⟩
    cases inner with
    | ret => simp [oneAttempt, hc, htb]
    | timedOut => cases ht : cb "timeout" <;> simp [oneAttempt, hc, htb, ht]
    | caught m => cases he : cb ("error: " ++ m) <;> simp [oneAttempt, hc, htb, he]

theorem oneAttempt_silent_not_raised (cfg : Config) (e : EphOutcome) (cb : Cb)
    (isLast : Bool) (h : silentCb cb) (m : String) :
    (oneAttempt cfg e cb isLast).1 ≠ StepRes.raised m := by
  unfold silentCb at h
  rcases htb : tryBody e cb with ⟨inner, evs⟩
  cases inner with
  | ret => simp [oneAttempt, h, htb]
  | timedOut => cases isLast <;> simp [oneAttempt, h, htb]
  | caught m2 => cases isLast <;> simp [oneAttempt, h, htb]

theorem oneAttempt_ok_silent (cfg : Config) (cb : Cb) (isLast : Bool)
    (h : silentCb cb) :
    oneAttempt cfg .ok cb isLast =
      (.returned true "OK", [Ev.openSession, Ev.settleSleep] ++ finEvents cfg) := by
  unfold silentCb at h
  simp [oneAttempt, tryBody, h]

theorem oneAttempt_timeout_silent (cfg : Config) (e : EphOutcome) (cb : Cb)
    (isLast : Bool) (h : silentCb cb)
    (he : e = .timeoutEarly ∨ e = .timeoutLate) :
    oneAttempt cfg e cb isLast =
      (if isLast then .returned false "Connection timeout" else .next,
       [Ev.openSession] ++ finEvents cfg) := by
  unfold silentCb at h
  rcases he with he | he <;> subst he <;>
    cases isLast <;> simp [oneAttempt, tryBody, h]

theorem oneAttempt_err_silent (cfg : Config) (e : EphOutcome) (cb : Cb)
    (isLast : Bool) (m : String) (h : silentCb cb)
    (he : e = .errEarly m ∨ e = .errLate m) :
    oneAttempt cfg e cb isLast =
      (if isLast then .returned false m else .next,
       [Ev.openSession] ++ finEvents cfg) := by
  unfold silentCb at h
  rcases he with he | he <;> subst he <;>
    cases isLast <;> simp [oneAttempt, tryBody, h]

end PanelHopper


namespace PanelHopper

/-! ### Helper lemmas about the retry loop and send_to_panel -/

theorem runAttempts_no_exhausted (cfg : Config) (eph : Nat → EphOutcome) (cb : Cb) :
    ∀ l : List Nat, l.getLast? = some cfg.retries →
      Ev.exhausted ∉ (runAttempts cfg eph cb l).2 := by
  intro l
  induction l with
  | nil => intro h; simp at h
  | cons a rest ih =>
    intro h
    rcases hstep : oneAttempt cfg (eph a) cb (a == cfg.retries) with ⟨step, evs⟩
    have hevs : Ev.exhausted ∉ evs := by
      have hmem := exhausted_not_mem_oneAttempt cfg (eph a) cb (a == cfg.retries)
      rw [hstep] at hmem
      exact hmem
    cases step with
    | returned s m => simpa [runAttempts, hstep] using hevs
    | raised m => simpa [runAttempts, hstep] using hevs
    | next =>
      cases rest with
      | nil =>
        have ha : a = cfg.retries := by simpa using h
        rw [ha, beq_self_eq_true] at hstep
        exact absurd (by rw [hstep]) (oneAttempt_last_ne_next cfg (eph cfg.retries) cb)
      | cons b t =>
        have h' : (b :: t).getLast? = some cfg.retries := by
          rwa [List.getLast?_cons_cons] at h
        have hrec := ih h'
        simp only [runAttempts, hstep, List.mem_append, not_or]
        exact ⟨hevs, hrec⟩

theorem runAttempts_silent_ok (cfg : Config) (eph : Nat → EphOutcome) (cb : Cb)
    (h : silentCb cb) :
    ∀ l : List Nat, ∃ r, (runAttempts cfg eph cb l).1 = .ok r := by
  intro l
  induction l with
  | nil => exact ⟨(false, "Max retries exceeded"), rfl⟩
  | cons a rest ih =>
    rcases hstep : oneAttempt cfg (eph a) cb (a == cfg.retries) with ⟨step, evs⟩
    cases step with
    | returned s m => exact ⟨(s, m), by simp [runAttempts, hstep]⟩
    | raised m =>
      have hnr := oneAttempt_silent_not_raised cfg (eph a) cb (a == cfg.retries) h m
      rw [hstep] at hnr
      exact absurd rfl hnr
    | next =>
      obtain ⟨r, hr⟩ := ih
      exact ⟨r, by simp [runAttempts, hstep, hr]⟩

theorem finEvents_eq_of_not_up (cfg : Config) (hup : cfg.use_persistent = false) :
    finEvents cfg = [Ev.closeAttempt, Ev.panelSleep] := by
  simp [finEvents, hup]

theorem oneAttempt_close_count (cfg : Config) (hup : cfg.use_persistent = false)
    (e : EphOutcome) (cb : Cb) (isLast : Bool) :
    (oneAttempt cfg e cb isLast).2.count Ev.closeAttempt =
      (oneAttempt cfg e cb isLast).2.count Ev.openSession := by
  rw [oneAttempt_evs]
  cases hc : cb "connecting" with
  | some m => simp
  | none =>
    simp only
    rw [List.count_append, List.count_append, finEvents_eq_of_not_up cfg hup]
    rcases tryBody_evs_cases e cb with h | h <;> rw [h] <;> decide

theorem runAttempts_close_count (cfg : Config) (hup : cfg.use_persistent = false)
    (eph : Nat → EphOutcome) (cb : Cb) :
    ∀ l : List Nat, (runAttempts cfg eph cb l).2.count Ev.closeAttempt =
      (runAttempts cfg eph cb l).2.count Ev.openSession := by
  intro l
  induction l with
  | nil => rfl
  | cons a rest ih =>
    rcases hstep : oneAttempt cfg (eph a) cb (a == cfg.retries) with ⟨step, evs⟩
    have hcnt := oneAttempt_close_count cfg hup (eph a) cb (a == cfg.retries)
    rw [hstep] at hcnt
    cases step with
    | returned s m => simpa [runAttempts, hstep] using hcnt
    | raised m => simpa [runAttempts, hstep] using hcnt
    | next => simp [runAttempts, hstep, List.count_append, hcnt, ih]

theorem attemptNums_getLast (R : Nat) (h : 1 ≤ R) :
    (attemptNums R).getLast? = some R := by
  have h0 : ¬ R = 0 := by omega
  simp [attemptNums, List.getLast?_range', h0]

theorem send_to_panel_silent_ok (cfg : Config) (env : TargetEnv) (pool : Pool)
    (mac name : String) (h : silentCb env.cb) :
    ∃ r evs pool', send_to_panel cfg env pool mac name = (.ok r, evs, pool') := by
  obtain ⟨r0, hr0⟩ := runAttempts_silent_ok cfg env.eph env.cb h (attemptNums cfg.retries)
  rcases hra : runAttempts cfg env.eph env.cb (attemptNums cfg.retries) with ⟨res, levs⟩
  rw [hra] at hr0
  have hres : res = Except.ok r0 := hr0
  have hcb := h
  unfold silentCb at hcb
  cases hup : cfg.use_persistent with
  | false => exact ⟨r0, levs, pool, by simp [send_to_panel, hup, hra, hres]⟩
  | true =>
    rcases hg : get_persistent_session env.pConnectOk pool mac
        (if name = "" then mac else name) with ⟨osk, pool1⟩
    cases osk with
    | none => exact ⟨r0, levs, pool1, by simp [send_to_panel, hup, hg, hra, hres]⟩
    | some ks =>
      cases hconn : ks.2.connected with
      | false =>
        exact ⟨r0, levs, pool1, by simp [send_to_panel, hup, hg, hconn, hra, hres]⟩
      | true =>
        rcases hsf : ks.2.send_frame env.pSendOk with ⟨sOK, s1⟩
        cases sOK with
        | true =>
          exact ⟨(true, "OK"), [], poolUpdate pool1 ks.1 s1,
            by simp [send_to_panel, hup, hg, hconn, hsf, hcb]⟩
        | false =>
          exact ⟨r0, levs, poolUpdate pool1 ks.1 s1,
            by simp [send_to_panel, hup, hg, hconn, hsf, hra, hres, hcb]⟩

theorem sendToMultipleFrom_spec (cfg : Config) (envs : Nat → TargetEnv)
    (h : ∀ i, silentCb (envs i).cb) :
    ∀ (targets : List Target) (i : Nat) (pool : Pool),
      ∃ out evs pool',
        sendToMultipleFrom cfg envs i pool targets = (.ok out, evs, pool') ∧
        out.map (fun o => o.1) = targets.map Target.mac := by
  intro targets
  induction targets with
  | nil => exact fun i pool => ⟨[], [], pool, rfl, rfl⟩
  | cons t rest ih =>
    intro i pool
    obtain ⟨r, evs, pool1, hstp⟩ :=
      send_to_panel_silent_ok cfg (envs i) pool t.mac t.name (h i)
    obtain ⟨out2, evs2, pool2, hrec, hmap⟩ := ih (i + 1) pool1
    refine ⟨(t.mac, r.1, r.2) :: out2, evs ++ evs2, pool2, ?_, ?_⟩
    · simp [sendToMultipleFrom, hstp, hrec]
    · simp [hmap]

theorem poolUpdate_length (pool : Pool) (mac : String) (s : PersistentSession) :
    (poolUpdate pool mac s).length = pool.length := by
  simp [poolUpdate]

theorem get_persistent_session_length_le (ok : Bool) (pool : Pool) (mac name : String)
    (h : pool.length ≤ 3) :
    ((get_persistent_session ok pool mac name).2).length ≤ 3 := by
  cases hl : poolLookup pool mac.toUpper with
  | none =>
    by_cases hcap : 3 ≤ pool.length
    · simpa [get_persistent_session, hl, hcap] using h
    · simp [get_persistent_session, hl, hcap]
      omega
  | some s =>
    cases hc : s.connected with
    | true => simpa [get_persistent_session, hl, hc] using h
    | false => simpa [get_persistent_session, hl, hc, poolUpdate_length] using h

theorem acquireSeq_length_le (reqs : List (Bool × String × String)) :
    ∀ pool : Pool, pool.length ≤ 3 → (acquireSeq pool reqs).length ≤ 3 := by
  induction reqs with
  | nil => intro pool h; simpa [acquireSeq] using h
  | cons r rest ih =>
    intro pool h
    have h1 := get_persistent_session_length_le r.1 pool r.2.1 r.2.2 h
    simpa [acquireSeq] using ih _ h1

theorem get_persistent_session_at_capacity (ok : Bool) (pool : Pool) (mac name : String)
    (hcap : 3 ≤ pool.length) (hmiss : poolLookup pool mac.toUpper = none) :
    get_persistent_session ok pool mac name = (none, pool) := by
  simp [get_persistent_session, hmiss, hcap]

theorem send_to_panel_fallback (cfg : Config) (env : TargetEnv) (pool : Pool)
    (mac name : String) (hup : cfg.use_persistent = true)
    (hcap : 3 ≤ pool.length) (hmiss : poolLookup pool mac.toUpper = none) :
    send_to_panel cfg env pool mac name =
      ((runAttempts cfg env.eph env.cb (attemptNums cfg.retries)).1,
       (runAttempts cfg env.eph env.cb (attemptNums cfg.retries)).2, pool) := by
  have hg := get_persistent_session_at_capacity env.pConnectOk pool mac
    (if name = "" then mac else name) hcap hmiss
  simp [send_to_panel, hup, hg]

theorem get_persistent_session_toUpper (ok : Bool) (pool : Pool) (name mac1 mac2 : String)
    (h : mac1.toUpper = mac2.toUpper) :
    get_persistent_session ok pool mac1 name = get_persistent_session ok pool mac2 name := by
  unfold get_persistent_session
  rw [h]

end PanelHopper


namespace PanelHopper

/-! ### Helper lemmas about delays, teardown and exhaustion -/

theorem oneAttempt_ends_panelSleep (cfg : Config) (e : EphOutcome) (cb : Cb)
    (isLast : Bool) (hc : cb "connecting" = none) :
    ((oneAttempt cfg e cb isLast).2).getLast? = some Ev.panelSleep := by
  rw [oneAttempt_evs, hc]
  show ((tryBody e cb).2 ++ finEvents cfg).getLast? = some Ev.panelSleep
  rw [finEvents, ← List.append_assoc, List.getLast?_concat]

theorem oneAttempt_settle_of_ok (cfg : Config) (cb : Cb) (isLast : Bool)
    (h : silentCb cb) :
    Ev.settleSleep ∈ (oneAttempt cfg .ok cb isLast).2 := by
  rw [oneAttempt_ok_silent cfg cb isLast h]
  simp

theorem send_to_panel_pooled_fast (cfg : Config) (env : TargetEnv) (pool : Pool)
    (mac name : String) (s : PersistentSession)
    (hup : cfg.use_persistent = true)
    (hl : poolLookup pool mac.toUpper = some s)
    (hconn : s.connected = true) (hsess : s.hasSession = true)
    (hok : env.pSendOk = true)
    (hcb1 : env.cb "sending" = none) (hcb2 : env.cb "success" = none) :
    (send_to_panel cfg env pool mac name).1 = .ok (true, "OK") ∧
    (send_to_panel cfg env pool mac name).2.1 = [] := by
  have hg : get_persistent_session env.pConnectOk pool mac
      (if name = "" then mac else name) = (some (mac.toUpper, s), pool) := by
    simp [get_persistent_session, hl, hconn]
  have hsf : s.send_frame env.pSendOk = (true, s) := by
    simp [PersistentSession.send_frame, hconn, hsess, hok]
  constructor <;> simp [send_to_panel, hup, hg, hconn, hsf, hcb1, hcb2]

theorem close_all_evs (discFails : Nat → Bool) (pool : Pool) :
    (close_all_sessions discFails pool).1 = pool.map (fun p => Ev.disc p.2.mac) := by
  show (pool.enum.map fun p => Ev.disc ((p.2.2.disconnect (discFails p.1)).mac)) = _
  calc (pool.enum.map fun p => Ev.disc ((p.2.2.disconnect (discFails p.1)).mac))
      = pool.enum.map
          ((fun q : String × PersistentSession => Ev.disc q.2.mac) ∘ Prod.snd) := rfl
    _ = (pool.enum.map Prod.snd).map
          (fun q : String × PersistentSession => Ev.disc q.2.mac) := by
        rw [List.map_map]
    _ = pool.map (fun q => Ev.disc q.2.mac) := by rw [List.enum_map_snd]

theorem send_to_panel_no_exhausted (cfg : Config) (env : TargetEnv) (pool : Pool)
    (mac name : String) (h : 1 ≤ cfg.retries) :
    Ev.exhausted ∉ (send_to_panel cfg env pool mac name).2.1 := by
  have hloop := runAttempts_no_exhausted cfg env.eph env.cb (attemptNums cfg.retries)
    (attemptNums_getLast cfg.retries h)
  cases hup : cfg.use_persistent with
  | false => simpa [send_to_panel, hup] using hloop
  | true =>
    rcases hg : get_persistent_session env.pConnectOk pool mac
        (if name = "" then mac else name) with ⟨osk, pool1⟩
    cases osk with
    | none => simpa [send_to_panel, hup, hg] using hloop
    | some ks =>
      cases hconn : ks.2.connected with
      | false => simpa [send_to_panel, hup, hg, hconn] using hloop
      | true =>
        cases hs : env.cb "sending" with
        | some m => simp [send_to_panel, hup, hg, hconn, hs]
        | none =>
          rcases hsf : ks.2.send_frame env.pSendOk with ⟨sOK, s1⟩
          cases sOK with
          | true =>
            cases hk : env.cb "success" with
            | some m => simp [send_to_panel, hup, hg, hconn, hs, hsf, hk]
            | none => simp [send_to_panel, hup, hg, hconn, hs, hsf, hk]
          | false => simpa [send_to_panel, hup, hg, hconn, hs, hsf] using hloop

theorem send_to_panel_zero_retries (cfg : Config) (env : TargetEnv) (pool : Pool)
    (mac name : String) (h0 : cfg.retries = 0)
    (hnp : cfg.use_persistent = false ∨
      (get_persistent_session env.pConnectOk pool mac
        (if name = "" then mac else name)).1 = none) :
    (send_to_panel cfg env pool mac name).1 = .ok (false, "Max retries exceeded") ∧
    Ev.openSession ∉ (send_to_panel cfg env pool mac name).2.1 := by
  have hra : runAttempts cfg env.eph env.cb (attemptNums cfg.retries) =
      (.ok (false, "Max retries exceeded"), [Ev.exhausted]) := by
    rw [h0]; rfl
  rcases hnp with hup | hnone
  · constructor <;> simp [send_to_panel, hup, hra]
  · cases hup : cfg.use_persistent with
    | false => constructor <;> simp [send_to_panel, hup, hra]
    | true =>
      rcases hg : get_persistent_session env.pConnectOk pool mac
          (if name = "" then mac else name) with ⟨osk, pool1⟩
      rw [hg] at hnone
      have hosk : osk = none := hnone
      subst hosk
      constructor <;> simp [send_to_panel, hup, hg, hra]

end PanelHopper


namespace PanelHopper

/-! ### Concrete inputs used by witnesses and counterexamples -/

/-- Controller with one retry and pooled reuse disabled. -/
def cfgEphOnly : Config := { retries := 1, use_persistent := false }

/-- Controller with one retry and pooled reuse enabled. -/
def cfgPooled : Config := { retries := 1, use_persistent := true }

/-- Controller with two retries and pooled reuse disabled. -/
def cfgTwoRetries : Config := { retries := 2, use_persistent := false }

/-- Controller with a zero retry count and pooled reuse disabled. -/
def cfgZero : Config := { retries := 0, use_persistent := false }

/-- Absent progress observer. -/
def cbNone : Cb := fun _ => none

/-- Environment where every radio operation succeeds and no observer is
installed. -/
def envAllOk : TargetEnv :=
  { pConnectOk := true, pSendOk := true, eph := fun _ => .ok, cb := cbNone }

/-- Progress observer that raises at the "connecting" phase. -/
def cbRaiseConnecting : Cb :=
  fun ph => if ph = "connecting" then some "observer crashed" else none

/-- Environment whose only unusual feature is an observer raising at the
"connecting" phase. -/
def envObserverCrash : TargetEnv :=
  { pConnectOk := true, pSendOk := true, eph := fun _ => .ok, cb := cbRaiseConnecting }

/-- Environment whose ephemeral attempts all raise an exception whose string
representation is empty (as `str(Exception())` is in Python). -/
def envEmptyError : TargetEnv :=
  { pConnectOk := true, pSendOk := true, eph := fun _ => .errEarly "", cb := cbNone }

/-- Environment where the pooled connect fails and every ephemeral attempt
times out during connect. -/
def envTimeoutAll : TargetEnv :=
  { pConnectOk := false, pSendOk := true, eph := fun _ => .timeoutEarly, cb := cbNone }

/-- Per-target environments where target 1 fails all its attempts and every
other target succeeds (all observers silent). -/
def envsMixed : Nat → TargetEnv := fun i => if i = 1 then envEmptyError else envAllOk

/-- A connected pooled session for address "AA:BB". -/
def sessW : PersistentSession :=
  { mac := "AA:BB", name := "Panel", hasSession := true, connected := true }

/-- A pool holding the one connected session `sessW`. -/
def poolOneConnected : Pool := [("AA:BB", sessW)]

/-- A pool filled to its capacity of three connected sessions. -/
def poolFull : Pool :=
  [("AA", { mac := "AA", name := "AA", hasSession := true, connected := true }),
   ("BB", { mac := "BB", name := "BB", hasSession := true, connected := true }),
   ("CC", { mac := "CC", name := "CC", hasSession := true, connected := true })]

/-- Three fan-out targets. -/
def targetsABC : List Target :=
  [{ mac := "AA", name := "one", png := [] },
   { mac := "BB", name := "two", png := [] },
   { mac := "CC", name := "three", png := [] }]

/-- Two acquisition requests for fresh addresses. -/
def reqsW : List (Bool × String × String) := [(false, "DD", ""), (false, "EE", "")]

/-- Evaluation form of `String.toUpper` (which is otherwise opaque to kernel
reduction, being defined through `String.mapAux`). -/
theorem toUpper_eq_data_map (s : String) : s.toUpper = ⟨s.data.map Char.toUpper⟩ :=
  String.map_eq Char.toUpper s

theorem upAA : ("AA" : String).toUpper = "AA" := by rw [toUpper_eq_data_map]; decide

theorem upAABB : ("AA:BB" : String).toUpper = "AA:BB" := by
  rw [toUpper_eq_data_map]; decide

theorem upDD : ("DD" : String).toUpper = "DD" := by rw [toUpper_eq_data_map]; decide

theorem upaa : ("aa" : String).toUpper = "AA" := by rw [toUpper_eq_data_map]; decide

/-! ### The claims -/

/-- C1: for every list of N targets and every radio-layer behaviour, provided
the progress observer returns normally, `send_to_multiple` returns exactly N
outcomes, in input order, with outcome i's address equal to target i's
address; a failure of any one target (any `envs i` may make target i fail)
never prevents the remaining targets from being processed — the outcome list
is always complete; and `send_same_to_all` delegates to `send_to_multiple`. -/
theorem claim1_fan_out_order_preserving (cfg : Config) (envs : Nat → TargetEnv)
    (pool : Pool) (targets : List Target) (h : ∀ i, silentCb (envs i).cb) :
    (∃ out evs pool',
      send_to_multiple cfg envs pool targets = (.ok out, evs, pool') ∧
      out.length = targets.length ∧
      out.map (fun o => o.1) = targets.map Target.mac) ∧
    (∀ macs png, send_same_to_all cfg envs pool macs png =
      send_to_multiple cfg envs pool
        (macs.map (fun p => { mac := p.1, name := p.2, png := png }))) := by
  refine ⟨?_, fun macs png => rfl⟩
  obtain ⟨out, evs, pool', heq, hmap⟩ := sendToMultipleFrom_spec cfg envs h targets 0 pool
  refine ⟨out, evs, pool', heq, ?_, hmap⟩
  simpa using congrArg List.length hmap

/-- Witness for C1 at a three-target fan-out whose middle target fails all its
attempts. -/
theorem claim1_witness :
    (∀ i, silentCb (envsMixed i).cb) ∧
    ((∃ out evs pool',
      send_to_multiple cfgEphOnly envsMixed [] targetsABC = (.ok out, evs, pool') ∧
      out.length = targetsABC.length ∧
      out.map (fun o => o.1) = targetsABC.map Target.mac) ∧
    (∀ macs png, send_same_to_all cfgEphOnly envsMixed [] macs png =
      send_to_multiple cfgEphOnly envsMixed []
        (macs.map (fun p => { mac := p.1, name := p.2, png := png })))) :=
  ⟨fun i _ph => by by_cases h1 : i = 1 <;> simp [envsMixed, envEmptyError, envAllOk, cbNone, h1],
   claim1_fan_out_order_preserving cfgEphOnly envsMixed [] targetsABC
     (fun i _ph => by by_cases h1 : i = 1 <;> simp [envsMixed, envEmptyError, envAllOk, cbNone, h1])⟩

/-- C2 counterexample: with pooled reuse off and one retry, a progress
observer raising at the "connecting" phase — a call site placed before the
`try` block in the source — makes its exception escape `send_to_panel`
(modelled as `Except.error`), so it is false that every failure path,
including an observer exception, is absorbed into a negative outcome. -/
theorem claim2_counterexample :
    (send_to_panel cfgEphOnly envObserverCrash [] "AA:BB" "").1 =
      Except.error "observer crashed" := rfl

/-- C2 as amended: whenever the progress observer returns normally (in
particular when none is installed), `send_to_panel` produces exactly one
`(success, message)` outcome and no exception or error escapes it, for every
radio-layer behaviour; an exception raised by the observer at the call sites
outside the per-attempt `try` block, however, propagates to the caller. -/
theorem claim2_no_escape_when_observer_silent (cfg : Config) (env : TargetEnv)
    (pool : Pool) (mac name : String) (h : silentCb env.cb) :
    ∃ r evs pool', send_to_panel cfg env pool mac name = (.ok r, evs, pool') :=
  send_to_panel_silent_ok cfg env pool mac name h

/-- Witness for the amended C2 with no observer installed. -/
theorem claim2_witness :
    silentCb envAllOk.cb ∧
    ∃ r evs pool', send_to_panel cfgEphOnly envAllOk [] "AA:BB" "" = (.ok r, evs, pool') :=
  ⟨fun ph => rfl,
   claim2_no_escape_when_observer_silent cfgEphOnly envAllOk [] "AA:BB" "" (fun ph => rfl)⟩

/-- C3 counterexample: an exception whose string representation is empty (as
`str(Exception())` is) on the final attempt makes the loop return
`(False, "")` — an empty message — refuting the claim's "non-empty message". -/
theorem claim3_counterexample :
    (runAttempts cfgEphOnly (fun _ => .errEarly "") cbNone
      (attemptNums cfgEphOnly.retries)).1 = .ok (false, "") := rfl

/-- C3 as amended: in the retry loop with a silent observer, for each attempt
`a` of the list `a :: rest`: on success the loop returns `(True, "OK")`
immediately; on timeout it returns `(False, "Connection timeout")` when
`a = retries` and otherwise continues with the remaining attempts; on any
other failure with message `m` it returns `(False, m)` when `a = retries`
(the message equals the failure's message and may be empty when the
underlying exception's text is empty) and otherwise continues. -/
theorem claim3_retry_loop_behaviour (cfg : Config) (eph : Nat → EphOutcome)
    (cb : Cb) (h : silentCb cb) (a : Nat) (rest : List Nat) :
    (eph a = .ok → (runAttempts cfg eph cb (a :: rest)).1 = .ok (true, "OK")) ∧
    ((eph a = .timeoutEarly ∨ eph a = .timeoutLate) →
      (a = cfg.retries →
        (runAttempts cfg eph cb (a :: rest)).1 = .ok (false, "Connection timeout")) ∧
      (a ≠ cfg.retries →
        (runAttempts cfg eph cb (a :: rest)).1 = (runAttempts cfg eph cb rest).1)) ∧
    (∀ m, (eph a = .errEarly m ∨ eph a = .errLate m) →
      (a = cfg.retries → (runAttempts cfg eph cb (a :: rest)).1 = .ok (false, m)) ∧
      (a ≠ cfg.retries →
        (runAttempts cfg eph cb (a :: rest)).1 = (runAttempts cfg eph cb rest).1)) := by
  refine ⟨?_, ?_, ?_⟩
  · intro hok
    have hstep := oneAttempt_ok_silent cfg cb (a == cfg.retries) h
    simp [runAttempts, hok, hstep]
  · intro he
    constructor
    · intro ha
      have hb : (a == cfg.retries) = true := by simp [ha]
      have hstep := oneAttempt_timeout_silent cfg (eph a) cb (a == cfg.retries) h he
      rw [hb] at hstep
      simp only [if_true] at hstep
      simp [runAttempts, hb, hstep]
    · intro ha
      have hb : (a == cfg.retries) = false := by simp [ha]
      have hstep := oneAttempt_timeout_silent cfg (eph a) cb (a == cfg.retries) h he
      rw [hb] at hstep
      simp only [Bool.false_eq_true, if_false] at hstep
      simp [runAttempts, hb, hstep]
  · intro m he
    constructor
    · intro ha
      have hb : (a == cfg.retries) = true := by simp [ha]
      have hstep := oneAttempt_err_silent cfg (eph a) cb (a == cfg.retries) m h he
      rw [hb] at hstep
      simp only [if_true] at hstep
      simp [runAttempts, hb, hstep]
    · intro ha
      have hb : (a == cfg.retries) = false := by simp [ha]
      have hstep := oneAttempt_err_silent cfg (eph a) cb (a == cfg.retries) m h he
      rw [hb] at hstep
      simp only [Bool.false_eq_true, if_false] at hstep
      simp [runAttempts, hb, hstep]

/-- Witness for the amended C3 at a two-retry loop whose attempts time out. -/
theorem claim3_witness :
    silentCb cbNone ∧
    (((fun _ : Nat => EphOutcome.timeoutEarly) 1 = .ok →
        (runAttempts cfgTwoRetries (fun _ => .timeoutEarly) cbNone (1 :: [2])).1 =
          .ok (true, "OK")) ∧
    (((fun _ : Nat => EphOutcome.timeoutEarly) 1 = .timeoutEarly ∨
        (fun _ : Nat => EphOutcome.timeoutEarly) 1 = .timeoutLate) →
      (1 = cfgTwoRetries.retries →
        (runAttempts cfgTwoRetries (fun _ => .timeoutEarly) cbNone (1 :: [2])).1 =
          .ok (false, "Connection timeout")) ∧
      (1 ≠ cfgTwoRetries.retries →
        (runAttempts cfgTwoRetries (fun _ => .timeoutEarly) cbNone (1 :: [2])).1 =
          (runAttempts cfgTwoRetries (fun _ => .timeoutEarly) cbNone [2]).1)) ∧
    (∀ m, ((fun _ : Nat => EphOutcome.timeoutEarly) 1 = .errEarly m ∨
        (fun _ : Nat => EphOutcome.timeoutEarly) 1 = .errLate m) →
      (1 = cfgTwoRetries.retries →
        (runAttempts cfgTwoRetries (fun _ => .timeoutEarly) cbNone (1 :: [2])).1 =
          .ok (false, m)) ∧
      (1 ≠ cfgTwoRetries.retries →
        (runAttempts cfgTwoRetries (fun _ => .timeoutEarly) cbNone (1 :: [2])).1 =
          (runAttempts cfgTwoRetries (fun _ => .timeoutEarly) cbNone [2]).1))) :=
  ⟨fun ph => rfl,
   claim3_retry_loop_behaviour cfgTwoRetries (fun _ => .timeoutEarly) cbNone
     (fun ph => rfl) 1 [2]⟩

/-- C4 counterexample: with pooled reuse enabled, a failed pool acquisition
followed by a timed-out ephemeral attempt opens a fresh session but never
attempts to close it (the source guards the close with
`not self.use_persistent`), so it is false that every attempt closes the
freshly opened session regardless of outcome — the handle is leaked. -/
theorem claim4_counterexample :
    Ev.openSession ∈ (send_to_panel cfgPooled envTimeoutAll [] "AA" "").2.1 ∧
    Ev.closeAttempt ∉ (send_to_panel cfgPooled envTimeoutAll [] "AA" "").2.1 := by
  decide

/-- C4 as amended: only when pooled reuse is disabled does every ephemeral
attempt attempt a best-effort close of its freshly opened session: the retry
loop then balances every session open with exactly one close attempt (for
every behaviour and observer), and each attempt that enters its `try` block
records a close attempt before its inter-attempt delay. -/
theorem claim4_close_iff_unpooled (cfg : Config) (eph : Nat → EphOutcome)
    (cb : Cb) (l : List Nat) (e : EphOutcome) (isLast : Bool)
    (hup : cfg.use_persistent = false) (hc : cb "connecting" = none) :
    (runAttempts cfg eph cb l).2.count Ev.closeAttempt =
      (runAttempts cfg eph cb l).2.count Ev.openSession ∧
    Ev.closeAttempt ∈ (oneAttempt cfg e cb isLast).2 := by
  refine ⟨runAttempts_close_count cfg hup eph cb l, ?_⟩
  rw [oneAttempt_evs, hc]
  show Ev.closeAttempt ∈ (tryBody e cb).2 ++ finEvents cfg
  rw [finEvents_eq_of_not_up cfg hup]
  simp

/-- Witness for the amended C4 with pooled reuse disabled. -/
theorem claim4_witness :
    (cfgEphOnly.use_persistent = false ∧ cbNone "connecting" = none) ∧
    ((runAttempts cfgEphOnly (fun _ => .ok) cbNone [1]).2.count Ev.closeAttempt =
      (runAttempts cfgEphOnly (fun _ => .ok) cbNone [1]).2.count Ev.openSession ∧
    Ev.closeAttempt ∈ (oneAttempt cfgEphOnly .ok cbNone true).2) :=
  ⟨⟨rfl, rfl⟩,
   claim4_close_iff_unpooled cfgEphOnly (fun _ => .ok) cbNone [1] .ok true rfl rfl⟩

/-- C5: the pool never exceeds its capacity of 3 — one acquisition preserves
`length ≤ 3` and so does any sequence of acquisitions — and when the pool is
at capacity with no entry for the requested (canonical) address, acquisition
returns absent unconditionally leaving the pool untouched, in which case
`send_to_panel` falls back to the ephemeral retry loop. -/
theorem claim5_pool_capacity (ok : Bool) (pool : Pool) (mac name : String)
    (reqs : List (Bool × String × String)) (cfg : Config) (env : TargetEnv) :
    (pool.length ≤ 3 → ((get_persistent_session ok pool mac name).2).length ≤ 3) ∧
    (pool.length ≤ 3 → (acquireSeq pool reqs).length ≤ 3) ∧
    (3 ≤ pool.length → poolLookup pool mac.toUpper = none →
      get_persistent_session ok pool mac name = (none, pool)) ∧
    (cfg.use_persistent = true → 3 ≤ pool.length → poolLookup pool mac.toUpper = none →
      send_to_panel cfg env pool mac name =
        ((runAttempts cfg env.eph env.cb (attemptNums cfg.retries)).1,
         (runAttempts cfg env.eph env.cb (attemptNums cfg.retries)).2, pool)) :=
  ⟨fun h => get_persistent_session_length_le ok pool mac name h,
   fun h => acquireSeq_length_le reqs pool h,
   fun hcap hmiss => get_persistent_session_at_capacity ok pool mac name hcap hmiss,
   fun hup hcap hmiss => send_to_panel_fallback cfg env pool mac name hup hcap hmiss⟩

/-- Witness for C5 at a full pool of three sessions and a fourth address. -/
theorem claim5_witness :
    (poolFull.length ≤ 3 ∧ 3 ≤ poolFull.length ∧
      poolLookup poolFull ("DD".toUpper) = none ∧ cfgPooled.use_persistent = true) ∧
    (((get_persistent_session false poolFull "DD" "").2).length ≤ 3 ∧
    (acquireSeq poolFull reqsW).length ≤ 3 ∧
    get_persistent_session false poolFull "DD" "" = (none, poolFull) ∧
    send_to_panel cfgPooled envAllOk poolFull "DD" "" =
      ((runAttempts cfgPooled envAllOk.eph envAllOk.cb (attemptNums cfgPooled.retries)).1,
       (runAttempts cfgPooled envAllOk.eph envAllOk.cb (attemptNums cfgPooled.retries)).2,
       poolFull)) := by
  have h := claim5_pool_capacity false poolFull "DD" "" reqsW cfgPooled envAllOk
  exact ⟨⟨by decide, by decide, by rw [upDD]; decide, rfl⟩,
    h.1 (by decide), h.2.1 (by decide),
    h.2.2.1 (by decide) (by rw [upDD]; decide),
    h.2.2.2 rfl (by decide) (by rw [upDD]; decide)⟩

/-- C6 counterexample: on an empty pool, an acquisition for a fresh address
whose connect fails returns absent but leaves the newly created session
behind in the pool (the source stores the entry in the dict before
attempting to connect), so "no partial held link left behind, pool
unchanged" is false. -/
theorem claim6_counterexample :
    (get_persistent_session false [] "AA" "X").1 = none ∧
    (get_persistent_session false [] "AA" "X").2 ≠ [] := by
  decide

/-- C6 as amended: for a fresh address below capacity, a new held link is
created and a connect attempted, but the link is inserted into the pool
before the connect: on success it is returned, and on connect failure the
acquisition returns absent while the disconnected held link remains stored
in the pool (occupying a capacity slot, available for later reconnects). -/
theorem claim6_insert_before_connect (ok : Bool) (pool : Pool) (mac name : String)
    (hmiss : poolLookup pool mac.toUpper = none) (hroom : pool.length < 3) :
    get_persistent_session ok pool mac name =
      (if ok then some (mac.toUpper,
          { mac := mac.toUpper, name := if name = "" then mac.toUpper else name,
            hasSession := true, connected := ok }) else none,
       pool ++ [(mac.toUpper,
          { mac := mac.toUpper, name := if name = "" then mac.toUpper else name,
            hasSession := true, connected := ok })]) := by
  have hcap : ¬ 3 ≤ pool.length := by omega
  cases ok <;>
    simp [get_persistent_session, hmiss, hcap, PersistentSession.init,
      PersistentSession.connect]

/-- Witness for the amended C6 at an empty pool and a failing connect. -/
theorem claim6_witness :
    (poolLookup [] ("AA".toUpper) = none ∧ ([] : Pool).length < 3) ∧
    get_persistent_session false [] "AA" "X" =
      (if false then some ("AA".toUpper,
          { mac := "AA".toUpper, name := if "X" = "" then "AA".toUpper else "X",
            hasSession := true, connected := false }) else none,
       [] ++ [("AA".toUpper,
          { mac := "AA".toUpper, name := if "X" = "" then "AA".toUpper else "X",
            hasSession := true, connected := false })]) :=
  ⟨⟨rfl, by decide⟩, claim6_insert_before_connect false [] "AA" "X" rfl (by decide)⟩

/-- C7 counterexample: a successful send over the pooled link returns at once
with an empty event trace — neither the configured inter-target delay nor the
post-send settle delay is waited — so it is false that every exit path of
`send_to_panel` waits the inter-target delay and every successful send holds
the settle delay. -/
theorem claim7_counterexample :
    (send_to_panel cfgPooled envAllOk poolOneConnected "AA:BB" "").1 = .ok (true, "OK") ∧
    Ev.panelSleep ∉ (send_to_panel cfgPooled envAllOk poolOneConnected "AA:BB" "").2.1 ∧
    Ev.settleSleep ∉ (send_to_panel cfgPooled envAllOk poolOneConnected "AA:BB" "").2.1 := by
  have hl : poolLookup poolOneConnected ("AA:BB".toUpper) = some sessW := by
    rw [upAABB]; decide
  have hfast := send_to_panel_pooled_fast cfgPooled envAllOk poolOneConnected
    "AA:BB" "" sessW rfl hl rfl rfl rfl rfl rfl
  refine ⟨hfast.1, ?_, ?_⟩ <;> rw [hfast.2] <;> simp

/-- C7 as amended: every ephemeral attempt ends its events with the
inter-target delay sleep, a successful ephemeral attempt holds the 0.5 s
settle sleep, but the pooled fast path returns success with an empty trace —
no inter-target delay and no settle delay. -/
theorem claim7_delays (cfg : Config) (e : EphOutcome) (cb : Cb) (isLast : Bool)
    (env : TargetEnv) (pool : Pool) (mac name : String) (s : PersistentSession)
    (hsil : silentCb cb) (hup : cfg.use_persistent = true)
    (hl : poolLookup pool mac.toUpper = some s) (hconn : s.connected = true)
    (hsess : s.hasSession = true) (hok : env.pSendOk = true)
    (hcb1 : env.cb "sending" = none) (hcb2 : env.cb "success" = none) :
    ((oneAttempt cfg e cb isLast).2).getLast? = some Ev.panelSleep ∧
    Ev.settleSleep ∈ (oneAttempt cfg .ok cb isLast).2 ∧
    ((send_to_panel cfg env pool mac name).1 = .ok (true, "OK") ∧
     (send_to_panel cfg env pool mac name).2.1 = []) :=
  ⟨oneAttempt_ends_panelSleep cfg e cb isLast (hsil "connecting"),
   oneAttempt_settle_of_ok cfg cb isLast hsil,
   send_to_panel_pooled_fast cfg env pool mac name s hup hl hconn hsess hok hcb1 hcb2⟩

/-- Witness for the amended C7 at a pool holding one connected session. -/
theorem claim7_witness :
    (silentCb cbNone ∧ cfgPooled.use_persistent = true ∧
      poolLookup poolOneConnected ("AA:BB".toUpper) = some sessW ∧
      sessW.connected = true ∧ sessW.hasSession = true ∧ envAllOk.pSendOk = true ∧
      envAllOk.cb "sending" = none ∧ envAllOk.cb "success" = none) ∧
    (((oneAttempt cfgPooled .timeoutEarly cbNone false).2).getLast? =
        some Ev.panelSleep ∧
    Ev.settleSleep ∈ (oneAttempt cfgPooled .ok cbNone false).2 ∧
    ((send_to_panel cfgPooled envAllOk poolOneConnected "AA:BB" "").1 =
        .ok (true, "OK") ∧
     (send_to_panel cfgPooled envAllOk poolOneConnected "AA:BB" "").2.1 = [])) :=
  ⟨⟨fun ph => rfl, rfl, by rw [upAABB]; decide, rfl, rfl, rfl, rfl, rfl⟩,
   claim7_delays cfgPooled .timeoutEarly cbNone false envAllOk poolOneConnected
     "AA:BB" "" sessW (fun ph => rfl) rfl (by rw [upAABB]; decide) rfl rfl rfl rfl rfl⟩

/-- C8 counterexample: a fan-out to the lowercase address "aa" reports the
outcome under "aa" verbatim, not under the canonical uppercase form "AA", so
it is false that the normalized form is the key used for result
correlation. -/
theorem claim8_counterexample :
    (send_to_multiple cfgEphOnly (fun _ => envAllOk) []
      [{ mac := "aa", name := "", png := [] }]).1 = .ok [("aa", true, "OK")] ∧
    ("aa" : String) ≠ ("aa" : String).toUpper :=
  ⟨rfl, by rw [upaa]; decide⟩

/-- C8 as amended: the device address is case-normalized to uppercase and
that canonical form is the sole key for pool membership — acquisitions with
any two casings of the same address behave identically — but the address
reported in each returned outcome is the caller-supplied string verbatim,
not the canonical key. -/
theorem claim8_canonical_key (ok : Bool) (pool : Pool) (name mac1 mac2 : String)
    (cfg : Config) (envs : Nat → TargetEnv) (pool0 : Pool) (targets : List Target)
    (hupper : mac1.toUpper = mac2.toUpper) (h : ∀ i, silentCb (envs i).cb) :
    get_persistent_session ok pool mac1 name = get_persistent_session ok pool mac2 name ∧
    (∃ out evs pool', send_to_multiple cfg envs pool0 targets = (.ok out, evs, pool') ∧
      out.map (fun o => o.1) = targets.map Target.mac) := by
  refine ⟨get_persistent_session_toUpper ok pool name mac1 mac2 hupper, ?_⟩
  obtain ⟨out, evs, pool', heq, hmap⟩ := sendToMultipleFrom_spec cfg envs h targets 0 pool0
  exact ⟨out, evs, pool', heq, hmap⟩

/-- Witness for the amended C8 with the two casings "aa" and "AA". -/
theorem claim8_witness :
    (("aa" : String).toUpper = ("AA" : String).toUpper ∧
      (∀ i : Nat, silentCb ((fun _ : Nat => envAllOk) i).cb)) ∧
    (get_persistent_session true [] "aa" "N" = get_persistent_session true [] "AA" "N" ∧
    (∃ out evs pool',
      send_to_multiple cfgEphOnly (fun _ => envAllOk) []
        [{ mac := "aa", name := "", png := [] }] = (.ok out, evs, pool') ∧
      out.map (fun o => o.1) =
        ([{ mac := "aa", name := "", png := [] }] : List Target).map Target.mac)) :=
  ⟨⟨by rw [upaa, upAA], fun i ph => rfl⟩,
   claim8_canonical_key true [] "N" "aa" "AA" cfgEphOnly (fun _ => envAllOk) []
     [{ mac := "aa", name := "", png := [] }] (by rw [upaa, upAA]) (fun i ph => rfl)⟩

/-- C9: `close_all_sessions` empties the pool, attempts a disconnect of every
held link, is insensitive to failures of the underlying `_safe_disconnect`
(best-effort, failures swallowed — it never raises), and calling it again on
the emptied pool is a no-op. -/
theorem claim9_drain_all (discFails : Nat → Bool) (pool : Pool) :
    (close_all_sessions discFails pool).2 = [] ∧
    (close_all_sessions discFails pool).1 = pool.map (fun p => Ev.disc p.2.mac) ∧
    (∀ g, close_all_sessions g (close_all_sessions discFails pool).2 = ([], [])) ∧
    (∀ g, close_all_sessions g pool = close_all_sessions discFails pool) := by
  refine ⟨rfl, close_all_evs discFails pool, fun g => rfl, fun g => ?_⟩
  have h1 : (close_all_sessions g pool).1 = (close_all_sessions discFails pool).1 :=
    (close_all_evs g pool).trans (close_all_evs discFails pool).symm
  have h2 : (close_all_sessions g pool).2 = (close_all_sessions discFails pool).2 := rfl
  exact Prod.ext h1 h2

/-- C10: when `retries ≥ 1`, `send_to_panel` always returns from the pooled
fast path or from inside the retry loop — its trailing
`return False, "Max retries exceeded"` is never reached, for every radio
behaviour and observer; conversely with `retries = 0` and no usable pooled
link it returns `(False, "Max retries exceeded")` — a message the spec never
mentions — without opening any ephemeral session. -/
theorem claim10_exhaustion_unreachable (cfg : Config) (env : TargetEnv)
    (pool : Pool) (mac name : String) :
    (1 ≤ cfg.retries → Ev.exhausted ∉ (send_to_panel cfg env pool mac name).2.1) ∧
    (cfg.retries = 0 →
      (cfg.use_persistent = false ∨
        (get_persistent_session env.pConnectOk pool mac
          (if name = "" then mac else name)).1 = none) →
      (send_to_panel cfg env pool mac name).1 = .ok (false, "Max retries exceeded") ∧
      Ev.openSession ∉ (send_to_panel cfg env pool mac name).2.1) :=
  ⟨send_to_panel_no_exhausted cfg env pool mac name,
   fun h0 hnp => send_to_panel_zero_retries cfg env pool mac name h0 hnp⟩

/-- Witness for C10: one retry on the left conjunct, zero retries with the
pool disabled on the right conjunct. -/
theorem claim10_witness :
    (1 ≤ cfgEphOnly.retries ∧
      Ev.exhausted ∉ (send_to_panel cfgEphOnly envAllOk [] "AA" "").2.1) ∧
    (cfgZero.retries = 0 ∧ cfgZero.use_persistent = false ∧
      (send_to_panel cfgZero envAllOk [] "AA" "").1 = .ok (false, "Max retries exceeded") ∧
      Ev.openSession ∉ (send_to_panel cfgZero envAllOk [] "AA" "").2.1) := by
  have ha := (claim10_exhaustion_unreachable cfgEphOnly envAllOk [] "AA" "").1 (by decide)
  have hb := (claim10_exhaustion_unreachable cfgZero envAllOk [] "AA" "").2 rfl (Or.inl rfl)
  exact ⟨⟨by decide, ha⟩, ⟨rfl, rfl, hb.1, hb.2⟩⟩

end PanelHopper
